import Mathlib

/-!
Shallow embedding of `src/filter-touchpad-pl.c` (libinput piecewise-linear
touchpad acceleration filter).

C `double` values are modelled as `ℚ`; timestamps (`uint64_t`, microseconds)
as `ℕ`; the C `int dpi` as `ℤ`.  The caller-specific `void *data` pointer is
modelled as a value of an arbitrary type `α` — the file never inspects it.

External collaborators that live in this repository but outside the given
source file (the velocity trackers of `filter.c`, the Simpson smoothing step,
`normalize_for_dpi`, `v_us2s`) are modelled from the spec, as marked on each
definition; the velocity-estimation policy and the DPI-normalization math are
left as parameters because the spec deliberately leaves them unspecified.

The transcendental `pow` used by the speed curve is taken as a parameter
`pw : ℚ → ℚ → ℚ`, so every statement about the speed curve holds for an
arbitrary real-power function.
-/

namespace TouchpadPL

/-- Per-axis motion delta in device units (`struct device_float_coords`). -/
structure device_float_coords where
  x : ℚ
  y : ℚ
deriving DecidableEq

/-- Per-axis motion delta normalized to the common resolution
(`struct normalized_coords`). -/
structure normalized_coords where
  x : ℚ
  y : ℚ
deriving DecidableEq

/-- Smoothing parameters attached to the trackers
(`struct pointer_delta_smoothener`). -/
structure pointer_delta_smoothener where
  threshold : ℕ
  value : ℕ
deriving DecidableEq

/-- Modelled from the spec: the VelocityTracker is an external collaborator
that "ingests timestamped raw deltas" and keeps a bounded history
(16 samples when averaging is requested, else 2).  Its state is the sample
history plus its capacity and the attached smoothing parameters
(`struct pointer_trackers`). -/
structure pointer_trackers where
  samples : List (device_float_coords × ℕ)
  ntrackers : ℕ
  smoothener : pointer_delta_smoothener
deriving DecidableEq

/-- Modelled from the spec: `trackers_init`, creation with a fixed history
depth and empty history. -/
def trackers_init (ntrackers : ℕ) : pointer_trackers :=
  { samples := [], ntrackers := ntrackers, smoothener := ⟨0, 0⟩ }

/-- Modelled from the spec: `trackers_feed` ingests one timestamped raw delta
into the bounded history. -/
def trackers_feed (trackers : pointer_trackers) (delta : device_float_coords)
    (time : ℕ) : pointer_trackers :=
  { trackers with samples := ((delta, time) :: trackers.samples).take trackers.ntrackers }

/-- Modelled from the spec: `trackers_reset` "resets VelocityTracker history
to a zero/empty state anchored at `timestamp`"; the spec states the reset
history is indistinguishable from an empty one, so it is modelled as the
empty history.  Capacity and smoothing parameters are preserved. -/
def trackers_reset (trackers : pointer_trackers) (time : ℕ) : pointer_trackers :=
  { trackers with samples := [] }

/-- `TP_MAGIC_SLOWDOWN`: unitless global slowdown factor. -/
def TP_MAGIC_SLOWDOWN : ℚ := 0.2968

/-- Mutable filter state (`struct touchpad_accelerator`); the
`speed_adjustment` field lives in the embedded `struct motion_filter base`
in the C source, and the `profile` function pointer is always
`touchpad_accel_profile`, so it is not stored. -/
structure touchpad_accelerator where
  speed_adjustment : ℚ
  velocity : ℚ
  last_velocity : ℚ
  trackers : pointer_trackers
  threshold : ℚ
  accel : ℚ
  dpi : ℤ
  speed_factor : ℚ
deriving DecidableEq

/-- Modelled from the spec: `v_us2s` converts a velocity in device units per
microsecond to device units per second (the spec's `velocity_to_per_second`). -/
def v_us2s (units_per_us : ℚ) : ℚ := units_per_us * 1000000

/-- The embedded control-point table of the piecewise-linear profile:
`{(20.0, 0.05), (100.0, 1.00)}`. -/
def points : List (ℚ × ℚ) := [(20, 0.05), (100, 1.00)]

/-- Index of the last control point (`const int i_max = 1`). -/
def i_max : ℕ := 1

/-- The `while (i > 0 && points[i][0] > speed_in) i--;` search loop of
`touchpad_accel_profile`, as structural recursion on `i`.  The loop only
reads in-bounds entries, rendered with a default that is never used. -/
def profile_index (speed_in : ℚ) : ℕ → ℕ
  | 0 => 0
  | i + 1 =>
    if (points.getD (i + 1) (0, 0)).1 > speed_in then profile_index speed_in i
    else i + 1

/-- Core of `touchpad_accel_profile` after the unit conversion, a function of
the speed in mm/s.  The clamp branches read `points[i_max]` and `points[0]`
(always in bounds, rendered with `getD`); the interpolation branch reads
`points[i]` and `points[i+1]`, where `i+1` can fall outside the table — an
out-of-bounds read, i.e. undefined behaviour in the C source — modelled by
`Option`: the result is `none` exactly when the C program reads past the
table. -/
def touchpad_accel_profile_mm (speed_in : ℚ) : Option ℚ :=
  if speed_in > (points.getD i_max (0, 0)).1 then some (points.getD i_max (0, 0)).2
  else if speed_in < (points.getD 0 (0, 0)).1 then some (points.getD 0 (0, 0)).2
  else
    let i := profile_index speed_in i_max
    match points[i]?, points[i + 1]? with
    | some pi, some pi1 =>
        some (pi.2 + (pi1.2 - pi.2) * (speed_in - pi.1) / (pi1.1 - pi.1))
    | _, _ => none

/-- `touchpad_accel_profile`: convert `speed_in` (device units/µs) to mm/s
via `v_us2s(speed_in) * 25.4 / dpi`, then evaluate the piecewise-linear
table.  `data` and `time` are accepted and ignored, as in the source. -/
def touchpad_accel_profile {α : Type} (filter : touchpad_accelerator) (data : α)
    (speed_in : ℚ) (time : ℕ) : Option ℚ :=
  touchpad_accel_profile_mm (v_us2s speed_in * 25.4 / (filter.dpi : ℚ))

/-- `speed_factor`: the speed curve.  Shift `s` to `[0, 2]`, then apply the
fitted rational curve `435837.2 + (0.04762636 - 435837.2) /
(1 + (s / 240.4549) ^ 2.377168)`, with the real power taken as the parameter
`pw`. -/
def speed_factor (pw : ℚ → ℚ → ℚ) (s : ℚ) : ℚ :=
  let s := s + 1
  435837.2 + (0.04762636 - 435837.2) / (1 + pw (s / 240.4549) 2.377168)

/-- `touchpad_accelerator_set_speed`: asserts `-1 ≤ speed_adjustment ≤ 1`
(assertion failure modelled as `none`), records the adjustment in the base
filter, recomputes `speed_factor` through the speed curve and returns
`true`. -/
def touchpad_accelerator_set_speed (pw : ℚ → ℚ → ℚ)
    (filter : touchpad_accelerator) (speed_adjustment : ℚ) :
    Option (Bool × touchpad_accelerator) :=
  if -1 ≤ speed_adjustment ∧ speed_adjustment ≤ 1 then
    some (true, { filter with
                    speed_adjustment := speed_adjustment,
                    speed_factor := speed_factor pw speed_adjustment })
  else
    none

/-- `touchpad_constant_filter`: normalize the raw delta for dpi (through the
collaborator `normalize_for_dpi`, a parameter — the spec excludes the
normalization math), then scale both axes by
`baseline * TP_MAGIC_SLOWDOWN` with `baseline = 0.9`.  The state is
returned unchanged: the C function never writes to the filter. -/
def touchpad_constant_filter {α : Type}
    (normalize_for_dpi : device_float_coords → ℤ → normalized_coords)
    (filter : touchpad_accelerator) (unaccelerated : device_float_coords)
    (data : α) (time : ℕ) : normalized_coords × touchpad_accelerator :=
  let baseline : ℚ := 0.9
  let normalized := normalize_for_dpi unaccelerated filter.dpi
  (⟨baseline * TP_MAGIC_SLOWDOWN * normalized.x,
    baseline * TP_MAGIC_SLOWDOWN * normalized.y⟩, filter)

/-- `touchpad_accelerator_restart`: reset the tracker history; nothing else
in the state is touched. -/
def touchpad_accelerator_restart {α : Type} (filter : touchpad_accelerator)
    (data : α) (time : ℕ) : touchpad_accelerator :=
  { filter with trackers := trackers_reset filter.trackers time }

/-- Modelled from the spec: `calculate_acceleration_simpsons`, the
numerical-integration-based FactorSmoother of the host's `filter.c` —
Simpson's rule averaging the profile at the current velocity, the previous
velocity and their midpoint:
`(profile(v) + profile(last) + 4 * profile((last + v) / 2)) / 6`.
The `profile` argument is already closed over the filter, caller data and
time, exactly the values the C call site passes along. -/
def calculate_acceleration_simpsons (profile : ℚ → Option ℚ)
    (velocity last_velocity : ℚ) : Option ℚ :=
  match profile velocity, profile last_velocity,
        profile ((last_velocity + velocity) / 2) with
  | some a, some b, some c => some ((a + b + 4 * c) / 6)
  | _, _, _ => none

/-- `calculate_acceleration_factor`: feed the delta to the trackers, obtain a
velocity estimate from the collaborator `trackers_velocity` (a parameter —
the spec leaves the estimation policy unspecified), smooth the profile with
Simpson's rule against `last_velocity`, and store the new estimate into
`last_velocity` for the next call. -/
def calculate_acceleration_factor {α : Type}
    (trackers_velocity : pointer_trackers → ℕ → ℚ)
    (accel : touchpad_accelerator) (unaccelerated : device_float_coords)
    (data : α) (time : ℕ) : Option ℚ × touchpad_accelerator :=
  let trackers := trackers_feed accel.trackers unaccelerated time
  let velocity := trackers_velocity trackers time
  let accel_factor :=
    calculate_acceleration_simpsons
      (fun v => touchpad_accel_profile accel data v time)
      velocity accel.last_velocity
  (accel_factor, { accel with trackers := trackers, last_velocity := velocity })

/-- `accelerator_filter_generic`: compute the acceleration factor and apply
it to both axes of the raw delta, still in device units. -/
def accelerator_filter_generic {α : Type}
    (trackers_velocity : pointer_trackers → ℕ → ℚ)
    (filter : touchpad_accelerator) (unaccelerated : device_float_coords)
    (data : α) (time : ℕ) : Option device_float_coords × touchpad_accelerator :=
  let r := calculate_acceleration_factor trackers_velocity filter unaccelerated data time
  (r.1.map fun accel_value => ⟨accel_value * unaccelerated.x,
                               accel_value * unaccelerated.y⟩, r.2)

/-- `accelerator_filter_post_normalized`: accelerate in device units, then
hand the result to the normalization collaborator. -/
def accelerator_filter_post_normalized {α : Type}
    (normalize_for_dpi : device_float_coords → ℤ → normalized_coords)
    (trackers_velocity : pointer_trackers → ℕ → ℚ)
    (filter : touchpad_accelerator) (unaccelerated : device_float_coords)
    (data : α) (time : ℕ) : Option normalized_coords × touchpad_accelerator :=
  let r := accelerator_filter_generic trackers_velocity filter unaccelerated data time
  (r.1.map fun accelerated => normalize_for_dpi accelerated filter.dpi, r.2)

/-- `create_pointer_accelerator_filter_touchpad_pl`: `zalloc` zero-initializes
every field; then `last_velocity := 0`, the trackers are initialized with
depth 16 or 2 according to `use_velocity_averaging`, `threshold := 130`,
`dpi` is stored, and the smoothener is attached with the given threshold and
value.  `speed_factor`, `velocity`, `accel` and the base `speed_adjustment`
keep their zero initialization. -/
def create_pointer_accelerator_filter_touchpad_pl (dpi : ℤ)
    (event_delta_smooth_threshold event_delta_smooth_value : ℕ)
    (use_velocity_averaging : Bool) : touchpad_accelerator :=
  { speed_adjustment := 0,
    velocity := 0,
    last_velocity := 0,
    trackers := { trackers_init (if use_velocity_averaging then 16 else 2) with
                    smoothener := ⟨event_delta_smooth_threshold,
                                   event_delta_smooth_value⟩ },
    threshold := 130,
    accel := 0,
    dpi := dpi,
    speed_factor := 0 }

/-- Reachable filter states: freshly created, or obtained from a reachable
state by accelerated evaluation, constant evaluation, restart, or a
successful speed change.  Parametric in the power function `pw` of the speed
curve; evaluation steps quantify over the unspecified velocity-estimation
and normalization collaborators. -/
inductive Reachable (pw : ℚ → ℚ → ℚ) : touchpad_accelerator → Prop
  | created (dpi : ℤ) (th v : ℕ) (avg : Bool) :
      Reachable pw (create_pointer_accelerator_filter_touchpad_pl dpi th v avg)
  | evalStep (tv : pointer_trackers → ℕ → ℚ) (s : touchpad_accelerator)
      (d : device_float_coords) (t : ℕ) :
      Reachable pw s →
      Reachable pw (accelerator_filter_generic tv s d () t).2
  | constStep (nf : device_float_coords → ℤ → normalized_coords)
      (s : touchpad_accelerator) (d : device_float_coords) (t : ℕ) :
      Reachable pw s →
      Reachable pw (touchpad_constant_filter nf s d () t).2
  | restartStep (s : touchpad_accelerator) (t : ℕ) :
      Reachable pw s →
      Reachable pw (touchpad_accelerator_restart s () t)
  | setSpeedStep (s : touchpad_accelerator) (p : ℚ) (b : Bool)
      (s' : touchpad_accelerator) :
      Reachable pw s →
      touchpad_accelerator_set_speed pw s p = some (b, s') →
      Reachable pw s'

/-- A concrete power function, linear in the base, used to instantiate the
parameter `pw` in concrete evaluations. -/
def pow_linear : ℚ → ℚ → ℚ := fun a _ => a

/-- A concrete velocity estimator that always reports zero. -/
def tv_zero : pointer_trackers → ℕ → ℚ := fun _ _ => 0

/-- A concrete velocity estimator that always reports 1/100 device units
per microsecond. -/
def tv_hundredth : pointer_trackers → ℕ → ℚ := fun _ _ => 1 / 100

/-- A concrete freshly created filter: dpi 400, smoothing threshold 16,
smoothing value 0, no velocity averaging. -/
def filter0 : touchpad_accelerator :=
  create_pointer_accelerator_filter_touchpad_pl 400 16 0 false

/-- Closed form of the piecewise-linear profile over the speed in mm/s:
above the last control point the last factor, below the first control point
the first factor, strictly between the two control points the linear
interpolation, and at exactly the last control point's speed `none` — the
out-of-bounds read of the C source. -/
theorem touchpad_accel_profile_mm_eq (x : ℚ) :
    touchpad_accel_profile_mm x =
      if 100 < x then some 1
      else if x < 20 then some (1 / 20)
      else if x < 100 then some (1 / 20 + (1 - 1 / 20) * (x - 20) / 80)
      else none := by
  by_cases h1 : 100 < x
  · norm_num [touchpad_accel_profile_mm, points, i_max, List.getD, h1]
  · by_cases h2 : x < 20
    · norm_num [touchpad_accel_profile_mm, points, i_max, List.getD, h1, h2]
    · by_cases h3 : x < 100
      · have hidx : profile_index x 1 = 0 := by
          norm_num [profile_index, points, h3]
        norm_num [touchpad_accel_profile_mm, points, i_max, List.getD, h1, h2, h3, hidx]
      · have hx : x = 100 := le_antisymm (le_of_not_lt h1) (le_of_not_lt h3)
        subst hx
        have hidx : profile_index 100 1 = 1 := by
          norm_num [profile_index, points]
        norm_num [touchpad_accel_profile_mm, points, i_max, List.getD, h1, h2, hidx]

/-- C2: for converted speeds strictly above the last control point's speed
the profile returns the last factor 1.00, but at the boundary case of
exactly 100 mm/s the code takes the interpolation branch with `i = i_max`
and reads one entry past the end of the control-point table — an
out-of-bounds read (undefined behaviour), modelled as `none`; in particular
the concrete input velocity 1/635 units/µs at dpi 400 converts to exactly
100 mm/s and exhibits the bug. -/
theorem touchpad_accel_profile_boundary_oob :
    touchpad_accel_profile_mm 100 = none ∧
    touchpad_accel_profile filter0 () (1 / 635) 0 = none ∧
    touchpad_accel_profile_mm 101 = some 1.00 ∧
    touchpad_accel_profile filter0 () (1 / 500) 0 = some 1.00 := by
  have h1 : touchpad_accel_profile_mm 100 = none := by
    norm_num [touchpad_accel_profile_mm_eq]
  have hdpi : filter0.dpi = 400 := rfl
  refine ⟨h1, ?_, ?_, ?_⟩
  · unfold touchpad_accel_profile
    rw [hdpi]
    have : v_us2s (1 / 635) * 25.4 / ((400 : ℤ) : ℚ) = 100 := by
      norm_num [v_us2s]
    rw [this, h1]
  · norm_num [touchpad_accel_profile_mm_eq]
  · unfold touchpad_accel_profile
    rw [hdpi, touchpad_accel_profile_mm_eq]
    norm_num [v_us2s]

/-- C3: for every filter state and raw velocity whose converted speed in
mm/s lies strictly between the two control-point speeds 20 and 100, the
profile returns the linear interpolation
`f_0 + (f_1 - f_0) * (speed - s_0) / (s_1 - s_0)`
with the embedded table `{(20, 0.05), (100, 1.00)}`. -/
theorem touchpad_accel_profile_interpolates {α : Type}
    (filter : touchpad_accelerator) (data : α) (speed_in : ℚ) (time : ℕ)
    (h20 : 20 < v_us2s speed_in * 25.4 / (filter.dpi : ℚ))
    (h100 : v_us2s speed_in * 25.4 / (filter.dpi : ℚ) < 100) :
    touchpad_accel_profile filter data speed_in time =
      some (0.05 + (1.00 - 0.05) *
        (v_us2s speed_in * 25.4 / (filter.dpi : ℚ) - 20) / (100 - 20)) := by
  unfold touchpad_accel_profile
  rw [touchpad_accel_profile_mm_eq]
  rw [if_neg (by linarith), if_neg (by linarith), if_pos h100]
  norm_num

/-- Witness for C3: with dpi 400, velocity 3/3175 units/µs converts to
exactly 60 mm/s, and the interpolated factor is 0.525. -/
theorem touchpad_accel_profile_interpolates_witness :
    (20 : ℚ) < v_us2s (3 / 3175) * 25.4 / (filter0.dpi : ℚ) ∧
    v_us2s (3 / 3175) * 25.4 / (filter0.dpi : ℚ) < 100 ∧
    touchpad_accel_profile filter0 () (3 / 3175) 0 =
      some (0.05 + (1.00 - 0.05) *
        (v_us2s (3 / 3175) * 25.4 / (filter0.dpi : ℚ) - 20) / (100 - 20)) ∧
    (0.05 + (1.00 - 0.05) *
        (v_us2s (3 / 3175) * 25.4 / (filter0.dpi : ℚ) - 20) / (100 - 20) : ℚ) =
      0.525 := by
  have hdpi : filter0.dpi = 400 := rfl
  have h20 : (20 : ℚ) < v_us2s (3 / 3175) * 25.4 / (filter0.dpi : ℚ) := by
    rw [hdpi]; norm_num [v_us2s]
  have h100 : v_us2s (3 / 3175) * 25.4 / (filter0.dpi : ℚ) < 100 := by
    rw [hdpi]; norm_num [v_us2s]
  refine ⟨h20, h100,
    touchpad_accel_profile_interpolates filter0 () (3 / 3175) 0 h20 h100, ?_⟩
  rw [hdpi]; norm_num [v_us2s]

/-- C9 (amended): wherever the profile actually returns a factor, that
factor is monotonic non-decreasing in the converted speed, including across
the clamp regions; the single converted speed at which the profile returns
no factor (the out-of-bounds read at exactly the last control point's
speed) is excluded. -/
theorem touchpad_accel_profile_mm_monotone (u v fu fv : ℚ) (huv : u ≤ v)
    (hu : touchpad_accel_profile_mm u = some fu)
    (hv : touchpad_accel_profile_mm v = some fv) : fu ≤ fv := by
  rw [touchpad_accel_profile_mm_eq] at hu hv
  split_ifs at hu hv <;> injection hu with hu <;> injection hv with hv <;>
    subst hu <;> subst hv <;> linarith

/-- Witness for C9: the factor at 30 mm/s (27/160) is at most the factor at
150 mm/s (1). -/
theorem touchpad_accel_profile_mm_monotone_witness :
    touchpad_accel_profile_mm 30 = some (27 / 160) ∧
    touchpad_accel_profile_mm 150 = some 1 ∧ (27 / 160 : ℚ) ≤ 1 := by
  have hu : touchpad_accel_profile_mm 30 = some (27 / 160) := by
    norm_num [touchpad_accel_profile_mm_eq]
  have hv : touchpad_accel_profile_mm 150 = some 1 := by
    norm_num [touchpad_accel_profile_mm_eq]
  exact ⟨hu, hv,
    touchpad_accel_profile_mm_monotone 30 150 (27 / 160) 1 (by norm_num) hu hv⟩

/-- Counterexample for C9 as stated: at the pair u = v = 100 (converted
speeds with u ≤ v, sitting exactly on the upper clamp boundary) the profile
returns no factor at all — the out-of-bounds read — so no pair of factors
with factor(u) ≤ factor(v) exists there. -/
theorem touchpad_accel_profile_mm_monotone_cex :
    (100 : ℚ) ≤ 100 ∧
    ¬ ∃ fu fv : ℚ, touchpad_accel_profile_mm 100 = some fu ∧
        touchpad_accel_profile_mm 100 = some fv ∧ fu ≤ fv := by
  constructor
  · exact le_refl 100
  · simp [touchpad_accel_profile_mm_eq]
    intro h
    linarith


/-- C1 (amended): the accelerated evaluation entry point scales both axes of
the raw delta by the Simpson-smoothed piecewise-linear profile factor
computed from the tracker velocity estimate and the previous velocity; the
baseline gain `speed_factor` is not part of the evaluated gain — changing
the `speed_factor` (and `speed_adjustment`) fields of the state leaves the
evaluated result unchanged. -/
theorem accelerator_filter_generic_gain {α : Type}
    (tv : pointer_trackers → ℕ → ℚ) (s : touchpad_accelerator)
    (d : device_float_coords) (data : α) (t : ℕ) (z z' : ℚ) :
    (accelerator_filter_generic tv s d data t).1 =
      (calculate_acceleration_simpsons
          (fun vel => touchpad_accel_profile s data vel t)
          (tv (trackers_feed s.trackers d t) t) s.last_velocity).map
        (fun accel_value => ⟨accel_value * d.x, accel_value * d.y⟩) ∧
    (accelerator_filter_generic tv
        { s with speed_adjustment := z', speed_factor := z } d data t).1 =
      (accelerator_filter_generic tv s d data t).1 := by
  refine ⟨rfl, ?_⟩
  simp [accelerator_filter_generic, calculate_acceleration_factor,
    touchpad_accel_profile]

/-- Counterexample for C1 as stated: from a freshly created filter, applying
setSpeed with preference -1 and with preference 1 (both in range) produces
two states with distinct speed_factor values, yet the accelerated evaluation
of the same delta with the same velocity history returns the same scaled
delta — the evaluated gain does not change with the speed preference. -/
theorem accelerator_filter_generic_speed_cex :
    touchpad_accelerator_set_speed pow_linear filter0 (-1) =
      some (true, { filter0 with
                    speed_adjustment := -1,
                    speed_factor := speed_factor pow_linear (-1) }) ∧
    touchpad_accelerator_set_speed pow_linear filter0 1 =
      some (true, { filter0 with
                    speed_adjustment := 1,
                    speed_factor := speed_factor pow_linear 1 }) ∧
    speed_factor pow_linear (-1) ≠ speed_factor pow_linear 1 ∧
    (accelerator_filter_generic tv_hundredth
        { filter0 with
          speed_adjustment := -1,
          speed_factor := speed_factor pow_linear (-1) } ⟨1, 1⟩ () 1).1 =
      (accelerator_filter_generic tv_hundredth
        { filter0 with
          speed_adjustment := 1,
          speed_factor := speed_factor pow_linear 1 } ⟨1, 1⟩ () 1).1 := by
  refine ⟨?_, ?_, ?_, ?_⟩
  · rw [touchpad_accelerator_set_speed, if_pos (by norm_num)]
  · rw [touchpad_accelerator_set_speed, if_pos (by norm_num)]
  · norm_num [speed_factor, pow_linear]
  · simp [accelerator_filter_generic, calculate_acceleration_factor,
      touchpad_accel_profile]

/-- C4 (amended): restart followed by an accelerated evaluation of a first
delta produces the same result as a freshly created filter with the same
configuration receiving that delta at the same time, provided the filter's
`last_velocity` field is zero — restart resets only the tracker history, and
the `last_velocity` of the smoothing step survives it. -/
theorem restart_then_eval_eq_fresh {α : Type}
    (tv : pointer_trackers → ℕ → ℚ) (s : touchpad_accelerator)
    (dpi : ℤ) (th sv : ℕ) (avg : Bool) (d : device_float_coords) (data : α)
    (t0 t : ℕ)
    (hdpi : s.dpi = dpi) (hlv : s.last_velocity = 0)
    (hcap : s.trackers.ntrackers = if avg then 16 else 2)
    (hsm : s.trackers.smoothener = ⟨th, sv⟩) :
    (accelerator_filter_generic tv (touchpad_accelerator_restart s data t0)
        d data t).1 =
      (accelerator_filter_generic tv
        (create_pointer_accelerator_filter_touchpad_pl dpi th sv avg)
        d data t).1 := by
  have htr : trackers_feed (trackers_reset s.trackers t0) d t =
      trackers_feed
        (create_pointer_accelerator_filter_touchpad_pl dpi th sv avg).trackers
        d t := by
    simp [trackers_feed, trackers_reset,
      create_pointer_accelerator_filter_touchpad_pl, trackers_init, hcap, hsm]
  simp only [accelerator_filter_generic, calculate_acceleration_factor,
    touchpad_accelerator_restart, touchpad_accel_profile,
    create_pointer_accelerator_filter_touchpad_pl, trackers_init]
  rw [hdpi, hlv, htr]
  simp [create_pointer_accelerator_filter_touchpad_pl, trackers_init]

/-- Witness for C4 (amended): a freshly created filter (whose last_velocity
is zero) restarted at time 5 and evaluated at time 6 gives the same result
as a second fresh filter with the same configuration evaluated at time 6. -/
theorem restart_then_eval_eq_fresh_witness :
    (accelerator_filter_generic tv_zero
        (touchpad_accelerator_restart
          (create_pointer_accelerator_filter_touchpad_pl 400 7 9 false) () 5)
        ⟨1, 2⟩ () 6).1 =
      (accelerator_filter_generic tv_zero
        (create_pointer_accelerator_filter_touchpad_pl 400 7 9 false)
        ⟨1, 2⟩ () 6).1 :=
  restart_then_eval_eq_fresh tv_zero
    (create_pointer_accelerator_filter_touchpad_pl 400 7 9 false)
    400 7 9 false ⟨1, 2⟩ () 5 6 rfl rfl rfl rfl

/-- Counterexample for C4 as stated: a reachable state whose last_velocity
is 1/100 (after one accelerated evaluation); restarting it and evaluating a
first delta yields a different scaled delta than a freshly created filter
with the same configuration receiving the same delta at the same time,
because the surviving last_velocity feeds the Simpson smoothing. -/
theorem restart_then_eval_cex :
    Reachable pow_linear
      ((accelerator_filter_generic tv_hundredth filter0 ⟨1, 1⟩ () 1).2) ∧
    ((accelerator_filter_generic tv_hundredth filter0 ⟨1, 1⟩ () 1).2).last_velocity
      = 1 / 100 ∧
    (accelerator_filter_generic tv_hundredth
        (touchpad_accelerator_restart
          ((accelerator_filter_generic tv_hundredth filter0 ⟨1, 1⟩ () 1).2) () 2)
        ⟨1, 1⟩ () 3).1 ≠
      (accelerator_filter_generic tv_hundredth filter0 ⟨1, 1⟩ () 3).1 := by
  refine ⟨Reachable.evalStep tv_hundredth filter0 ⟨1, 1⟩ 1
    (Reachable.created 400 16 0 false), rfl, ?_⟩
  simp only [accelerator_filter_generic, calculate_acceleration_factor,
    touchpad_accelerator_restart, touchpad_accel_profile,
    touchpad_accel_profile_mm_eq, calculate_acceleration_simpsons,
    trackers_feed, trackers_reset, tv_hundredth, v_us2s, filter0,
    create_pointer_accelerator_filter_touchpad_pl, trackers_init]
  norm_num
/-- C5: for every normalization collaborator, filter state, raw delta,
auxiliary data and timestamp, the constant (non-accelerated) evaluation
returns the dpi-normalized delta with both axes scaled by the constant gain
0.9 × 0.2968 = 0.26712, and the result is unchanged when the velocity state
of the filter is replaced arbitrarily — it depends on neither the timestamp
nor the velocity history. -/
theorem touchpad_constant_filter_gain {α : Type}
    (nf : device_float_coords → ℤ → normalized_coords)
    (s : touchpad_accelerator) (d : device_float_coords) (data : α) (t : ℕ)
    (w w' : ℚ) (tr : pointer_trackers) :
    touchpad_constant_filter nf s d data t =
      (⟨0.26712 * (nf d s.dpi).x, 0.26712 * (nf d s.dpi).y⟩, s) ∧
    (touchpad_constant_filter nf
        { s with velocity := w, last_velocity := w', trackers := tr }
        d data t).1 =
      (touchpad_constant_filter nf s d data t).1 := by
  constructor
  · have hc : (0.9 : ℚ) * TP_MAGIC_SLOWDOWN = 0.26712 := by
      norm_num [TP_MAGIC_SLOWDOWN]
    simp only [touchpad_constant_filter]
    rw [hc]
  · rfl

/-- C6: setSpeed succeeds, returns true, and stores the SpeedCurve value
`435837.2 + (0.04762636 - 435837.2) / (1 + ((preference+1)/240.4549) ^
2.377168)` into speed_factor for every preference in [-1, 1], and fails the
precondition assertion for every preference outside [-1, 1]. -/
theorem touchpad_accelerator_set_speed_spec (pw : ℚ → ℚ → ℚ)
    (s : touchpad_accelerator) (p : ℚ) :
    ((-1 ≤ p ∧ p ≤ 1) →
      touchpad_accelerator_set_speed pw s p =
        some (true, { s with
                      speed_adjustment := p,
                      speed_factor := 435837.2 + (0.04762636 - 435837.2) /
                        (1 + pw ((p + 1) / 240.4549) 2.377168) })) ∧
    (¬(-1 ≤ p ∧ p ≤ 1) → touchpad_accelerator_set_speed pw s p = none) := by
  constructor
  · intro hp
    rw [touchpad_accelerator_set_speed, if_pos hp]
    rfl
  · intro hp
    rw [touchpad_accelerator_set_speed, if_neg hp]

/-- Witness for C6: setSpeed with the in-range preference 0 succeeds and
stores the curve value; setSpeed with the out-of-range preference 1.5
fails. -/
theorem touchpad_accelerator_set_speed_spec_witness :
    touchpad_accelerator_set_speed pow_linear filter0 0 =
      some (true, { filter0 with
                    speed_adjustment := 0,
                    speed_factor := 435837.2 + (0.04762636 - 435837.2) /
                      (1 + pow_linear ((0 + 1) / 240.4549) 2.377168) }) ∧
    touchpad_accelerator_set_speed pow_linear filter0 (3 / 2) = none :=
  ⟨(touchpad_accelerator_set_speed_spec pow_linear filter0 0).1 (by norm_num),
   (touchpad_accelerator_set_speed_spec pow_linear filter0 (3 / 2)).2
     (by norm_num)⟩

/-- C7 (amended): the accelerated evaluation entry point feeds the tracker
history and stores the new velocity estimate into `last_velocity`; the
`velocity` field is never written (it keeps whatever value it had), and no
configuration field (dpi, speed_factor, threshold, accel, speed_adjustment)
is mutated. -/
theorem accelerator_filter_generic_state_update {α : Type}
    (tv : pointer_trackers → ℕ → ℚ) (s : touchpad_accelerator)
    (d : device_float_coords) (data : α) (t : ℕ) :
    (accelerator_filter_generic tv s d data t).2 =
      { s with
        trackers := trackers_feed s.trackers d t,
        last_velocity := tv (trackers_feed s.trackers d t) t } ∧
    ((accelerator_filter_generic tv s d data t).2).velocity = s.velocity ∧
    ((accelerator_filter_generic tv s d data t).2).dpi = s.dpi ∧
    ((accelerator_filter_generic tv s d data t).2).speed_factor =
      s.speed_factor ∧
    ((accelerator_filter_generic tv s d data t).2).threshold = s.threshold ∧
    ((accelerator_filter_generic tv s d data t).2).accel = s.accel ∧
    ((accelerator_filter_generic tv s d data t).2).speed_adjustment =
      s.speed_adjustment :=
  ⟨rfl, rfl, rfl, rfl, rfl, rfl, rfl⟩

/-- Counterexample for C7 as stated: on a fresh filter, the evaluation with
a velocity estimator reporting 1/100 stores 1/100 into `last_velocity`, but
the `velocity` field remains 0 — the newly estimated velocity is never
written into `velocity`. -/
theorem accelerator_filter_generic_velocity_cex :
    tv_hundredth (trackers_feed filter0.trackers ⟨1, 1⟩ 1) 1 = 1 / 100 ∧
    ((accelerator_filter_generic tv_hundredth filter0 ⟨1, 1⟩ () 1).2).last_velocity
      = 1 / 100 ∧
    ((accelerator_filter_generic tv_hundredth filter0 ⟨1, 1⟩ () 1).2).velocity
      = 0 ∧
    (0 : ℚ) ≠ 1 / 100 :=
  ⟨rfl, rfl, rfl, by norm_num⟩

/-- C8 (amended): in every reachable state, speed_factor is either its
zero initialization (create never calls the speed curve, so before any
setSpeed the value is 0, not a curve value) or the SpeedCurve value of the
state's speed_adjustment field — the last valid preference recorded by
setSpeed, which is then in range; the induction covers every operation, so
no other operation sets it. -/
theorem speed_factor_reachable_invariant (pw : ℚ → ℚ → ℚ)
    (s : touchpad_accelerator) (h : Reachable pw s) :
    s.speed_factor = 0 ∨
      (-1 ≤ s.speed_adjustment ∧ s.speed_adjustment ≤ 1 ∧
        s.speed_factor = speed_factor pw s.speed_adjustment) := by
  induction h with
  | created dpi th v avg => exact Or.inl rfl
  | evalStep tv s d t hs ih => exact ih
  | constStep nf s d t hs ih => exact ih
  | restartStep s t hs ih => exact ih
  | setSpeedStep s p b s' hs heq ih =>
      rw [touchpad_accelerator_set_speed] at heq
      split_ifs at heq with hp
      simp only [Option.some.injEq, Prod.mk.injEq] at heq
      rw [← heq.2]
      exact Or.inr ⟨hp.1, hp.2, rfl⟩

/-- Witness for C8 (amended): the freshly created filter is reachable, and
its speed_factor satisfies the invariant (being the initial zero). -/
theorem speed_factor_reachable_invariant_witness :
    filter0.speed_factor = 0 ∨
      (-1 ≤ filter0.speed_adjustment ∧ filter0.speed_adjustment ≤ 1 ∧
        filter0.speed_factor = speed_factor pow_linear filter0.speed_adjustment) :=
  speed_factor_reachable_invariant pow_linear filter0
    (Reachable.created 400 16 0 false)

/-- Counterexample for C8 as stated: with the concrete power function
`pow_linear` it is not true that every reachable state's speed_factor is the
SpeedCurve value of some valid preference — the freshly created filter is
reachable with speed_factor 0, and the curve is strictly positive on
[-1, 1]. -/
theorem speed_factor_invariant_cex :
    ¬ ∀ s : touchpad_accelerator, Reachable pow_linear s →
        ∃ p, -1 ≤ p ∧ p ≤ 1 ∧ s.speed_factor = speed_factor pow_linear p := by
  intro h
  obtain ⟨p, hp1, hp2, hval⟩ := h filter0 (Reachable.created 400 16 0 false)
  have h0 : filter0.speed_factor = 0 := rfl
  rw [h0] at hval
  have hx : (0 : ℚ) ≤ (p + 1) / 240.4549 := by
    apply div_nonneg (by linarith) (by norm_num)
  have h1x : (0 : ℚ) < 1 + (p + 1) / 240.4549 := by linarith
  have hpos : 0 < speed_factor pow_linear p := by
    simp only [speed_factor, pow_linear]
    have hstep : (0.04762636 - 435837.2 : ℚ) ≤
        (0.04762636 - 435837.2) / (1 + (p + 1) / 240.4549) := by
      rw [le_div_iff₀ h1x]
      have hmul : (0 : ℚ) ≤ (435837.2 - 0.04762636) * ((p + 1) / 240.4549) :=
        mul_nonneg (by norm_num) hx
      nlinarith [hmul]
    linarith [hstep]
  rw [← hval] at hpos
  exact lt_irrefl 0 hpos

/-- C10: the constant (non-accelerated) evaluation performs no state
mutation at all — the returned state equals the input state for every
normalization collaborator, delta, auxiliary data and timestamp — and its
result ignores the auxiliary data and timestamp arguments entirely. -/
theorem touchpad_constant_filter_frame {α β : Type}
    (nf : device_float_coords → ℤ → normalized_coords)
    (s : touchpad_accelerator) (d : device_float_coords)
    (data : α) (data' : β) (t t' : ℕ) :
    (touchpad_constant_filter nf s d data t).2 = s ∧
    (touchpad_constant_filter nf s d data t).1 =
      (touchpad_constant_filter nf s d data' t').1 :=
  ⟨rfl, rfl⟩

end TouchpadPL
